import Mathlib

/-!
Shallow embedding of the unified agent module of the agentic-rag repository
(the Decision Workflow Engine built on a LangGraph StateGraph, and the
React / Autonomous Tool Loop strategy), together with theorems checking the
natural-language specification against it.

Modelling conventions:
* JavaScript strings are modelled as Lean `String`; character-index
  operations (substring, includes, trim, case folding) are modelled on the
  character list `String.data`.
* Floating-point temperatures and relevance scores are modelled as exact
  rationals; the textual rendering of a score inside a prompt is modelled by
  an explicit (injective enough) rendering function, since the JS float
  formatting itself is opaque to the control-flow contract.
* Wall-clock timestamps (new Date().toISOString()) are modelled as the
  constant empty string: no control flow depends on them.
* The two external services are modelled as explicit function fields of a
  `Services` record returning `Except` (a JS exception is `Except.error`).
* Every external call the workflow makes is also recorded in a trace
  (`List ServiceCall`) so that claims about which calls happen can be stated.
-/

namespace AgenticRAG

/-- A chat message `\x7brole, content\x7d` sent to the Completion Service. -/
structure ChatMsg where
  role : String
  content : String
deriving DecidableEq, Repr

/-- A LangChain state message (HumanMessage / AIMessage). -/
inductive LCMessage where
  | human (content : String)
  | ai (content : String)
deriving DecidableEq, Repr

/-- The `.content` accessor of a LangChain message. -/
def LCMessage.content : LCMessage → String
  | .human s => s
  | .ai s => s

/-- Options passed to `services.generateCompletion`. -/
structure CompletionOpts where
  temperature : ℚ
  maxTokens : Nat
deriving DecidableEq, Repr

/-- Options passed to `services.searchDocuments`. -/
structure SearchOpts where
  top : Nat
  queryType : String
deriving DecidableEq, Repr

/-- A raw document coming back from the Retrieval Service. `content?` models
the possibly absent `content` field; `jsonRepr` models what
`JSON.stringify(document)` would print. -/
structure RawDoc where
  content? : Option String
  jsonRepr : String
deriving DecidableEq, Repr

/-- One entry of `searchResults.results`. -/
structure SearchResult where
  document : RawDoc
  score : ℚ
deriving DecidableEq, Repr

/-- A document as stored in workflow state by the retrieve node. -/
structure RetrievedDoc where
  content : String
  score : ℚ
  metadata : RawDoc
deriving DecidableEq, Repr

/-- JS `result.document.content || JSON.stringify(result.document)`: an
absent or empty (falsy) content field falls back to the JSON rendering. -/
def RawDoc.contentOrJson (d : RawDoc) : String :=
  match d.content? with
  | some c => if c = "" then d.jsonRepr else c
  | none => d.jsonRepr

/-- The mapping applied to each search result in `_retrieveNode`. -/
def SearchResult.toRetrievedDoc (r : SearchResult) : RetrievedDoc :=
  { content := r.document.contentOrJson, score := r.score, metadata := r.document }

/-! ### JS string primitives, modelled on character lists -/

/-- Helper for `strIncludes`: does `pat` occur as a contiguous run in the list? -/
def strIncludesAux (pat : List Char) : List Char → Bool
  | [] => pat.isPrefixOf []
  | c :: t => pat.isPrefixOf (c :: t) || strIncludesAux pat t

/-- JS `s.includes(pat)`: contiguous-substring containment. -/
def strIncludes (s pat : String) : Bool :=
  strIncludesAux pat.data s.data

/-- JS `s.toUpperCase()` (alphabetic case folding). -/
def jsToUpperCase (s : String) : String :=
  ⟨s.data.map Char.toUpper⟩

/-- JS `s.toLowerCase()`. -/
def jsToLowerCase (s : String) : String :=
  ⟨s.data.map Char.toLower⟩

/-- JS `s.trim()`: strip leading and trailing whitespace. -/
def jsTrim (s : String) : String :=
  ⟨((s.data.dropWhile Char.isWhitespace).reverse.dropWhile Char.isWhitespace).reverse⟩

/-- JS `s.substring(0, n)`: the first `n` characters. -/
def jsSubstring (s : String) (n : Nat) : String :=
  ⟨s.data.take n⟩

/-- `decision.trim().toUpperCase().includes("RETRIEVE")` from `_agentNode`:
case-insensitive substring matching for RETRIEVE (the trim cannot affect the
match, since RETRIEVE has no whitespace). -/
def containsRetrieveCI (s : String) : Bool :=
  strIncludes (jsToUpperCase (jsTrim s)) "RETRIEVE"

/-- `gradeResult.trim().toLowerCase().includes("yes")` from
`_gradeDocumentsNode`: case-insensitive substring matching for yes. -/
def containsYesCI (s : String) : Bool :=
  strIncludes (jsToLowerCase (jsTrim s)) "yes"

/-- Rendering of a relevance score inside a prompt (models the opaque JS
number-to-string conversion). -/
def scoreToString (x : ℚ) : String :=
  toString x.num ++ (if x.den = 1 then "" else "/" ++ toString x.den)

/-! ### Prompt templates (transcribed from the source template literals) -/

/-- The `analysisPrompt` template literal of `_agentNode`. -/
def analysisPrompt (userQuery : String) : String :=
  "You are an AI assistant that determines whether a user query could benefit from external document retrieval.\n\nUser Query: \"" ++ userQuery ++ "\"\n\nAlways respond \"RETRIEVE\" if the query could potentially benefit from:\n- Company-specific information (brand guidelines, style guides, internal docs)\n- Recent reports, studies, or research findings\n- Proprietary knowledge or internal processes\n- Specific technical documentation\n- Current industry trends or data\n\nFor creative/strategic work mentioning specific companies (like Adobe, Google, etc.), always try RETRIEVE first to check for relevant brand guidelines or company-specific information.\n\nThe query asks for: \"" ++ userQuery ++ "\"\n\nRespond with only one word: RETRIEVE or GENERATE"

/-- The per-document excerpt inside the grading prompt:
`Document i+1:` followed by the content truncated to 500 characters. -/
def gradeDocSegment (i : Nat) (doc : RetrievedDoc) : String :=
  "\nDocument " ++ toString (i + 1) ++ ":\n" ++ jsSubstring doc.content 500 ++
    "...\nScore: " ++ scoreToString doc.score ++ "\n"

/-- The joined block of document excerpts inside the grading prompt. -/
def gradeDocsBlock (docs : List RetrievedDoc) : String :=
  String.intercalate "\n" (docs.mapIdx gradeDocSegment)

/-- The `gradePrompt` template literal of `_gradeDocumentsNode`. -/
def gradePrompt (userQuery : String) (docs : List RetrievedDoc) : String :=
  "You are a grader assessing whether retrieved documents contain specific company/brand information that would improve the response.\n\nUser Question: \"" ++ userQuery ++ "\"\n\nRetrieved Documents:\n" ++ gradeDocsBlock docs ++ "\n\nLook specifically for:\n- Brand guidelines, style guides, or design standards for " ++ (if strIncludes userQuery "Adobe" then "Adobe" else "the mentioned company") ++ "\n- Company-specific design principles or requirements\n- Official documentation or internal processes  \n- Proprietary knowledge that goes beyond general industry knowledge\n\nOnly respond \x27yes\x27 if documents contain specific brand/company information. \nRespond \x27no\x27 if documents are:\n- Generic industry advice or best practices\n- Unrelated to the specific company mentioned\n- General design principles without company specifics\n\nRespond with only: yes or no"

/-- The per-document context segment of the answer-synthesis prompt:
`Source i+1:` followed by the full (untruncated) document content. -/
def contextSegment (i : Nat) (doc : RetrievedDoc) : String :=
  "\nSource " ++ toString (i + 1) ++ ":\n" ++ doc.content ++ "\n"

/-- The answer-synthesis (RAG) generation prompt of `_generateNode`, built
from the query and the full retrieved document contents. -/
def ragAnswerPrompt (userQuery : String) (docs : List RetrievedDoc) : String :=
  "You are an assistant for question-answering tasks. Use the following pieces of retrieved context to answer the question. If you don\x27t know the answer, just say that you don\x27t know. Be comprehensive and detailed in your response.\n\nQuestion: " ++ userQuery ++ "\n\nContext:\n" ++ String.intercalate "\n" (docs.mapIdx contextSegment) ++ "\n\nAnswer:"

/-- The rejection note embedded in the general-knowledge prompt when a
non-empty rejection reason is present. -/
def rejectionNote (rejectionReason : String) : String :=
  if rejectionReason = "" then ""
  else
    "Note: External documents were retrieved but " ++ jsToLowerCase rejectionReason ++
      ". Proceeding with general knowledge."

/-- The general-knowledge generation prompt of `_generateNode` (no document
context). -/
def generalKnowledgePrompt (userQuery : String) (reason : String) : String :=
  "You are a helpful AI assistant. Answer the following question using your general knowledge. Be comprehensive and acknowledge any limitations in your response.\n\nQuestion: " ++ userQuery ++ "\n\n" ++ rejectionNote reason ++ "\n\nAnswer:"

/-! ### Execution state, services and call trace -/

/-- The `details` payload of an execution step, one constructor per call
site of `_addStep` (plus the two fixed React-trace shapes). -/
inductive StepDetails where
  | agentAnalysis (userQuery : String)
  | retrieval (searchQuery : String) (retryCount : Int)
  | gradeDocuments (docCount : Nat)
  | generation (ragAccepted : Option Bool) (docCount : Nat)
  | toolCall (toolName : String) (arguments : String)
  | reactGenerate (agentType : String)
deriving DecidableEq, Repr

/-- One `executionSteps` entry. Timestamps are modelled as the constant
empty string (no control flow reads them). -/
structure Step where
  step : String
  timestamp : String
  details : StepDetails
deriving DecidableEq, Repr

/-- `_addStep`: wraps one step record in a singleton list (the
`executionSteps` channel uses a concatenating reducer). -/
def _addStep (step : String) (details : StepDetails) : List Step :=
  [{ step := step, timestamp := "", details := details }]

/-- The `AgenticRAGState` annotation root: one channel per field.
`messages` and `executionSteps` concatenate on update, all other channels
replace their value. -/
structure RAGState where
  messages : List LCMessage
  sessionId : String
  userQuery : String
  needsRAG : Option Bool
  searchQuery : String
  retrievedDocs : List RetrievedDoc
  ragAccepted : Option Bool
  rejectionReason : String
  finalAnswer : String
  executionSteps : List Step
  retryCount : Int
  maxRetries : Int
deriving DecidableEq, Repr

/-- The two consumed external services. A call that throws is modelled by
`Except.error` carrying the message. `searchDocuments` returns the
`results` array (the workflow reads only `.results`). -/
structure Services where
  generateCompletion : List ChatMsg → CompletionOpts → Except String String
  searchDocuments : String → SearchOpts → Except String (List SearchResult)

/-- One recorded external call (arguments and outcome). -/
inductive ServiceCall where
  | completion (messages : List ChatMsg) (opts : CompletionOpts)
      (result : Except String String)
  | search (query : String) (opts : SearchOpts)
      (result : Except String (List SearchResult))
deriving Repr

/-- Options of the Analyze-stage completion call. -/
def analyzeOpts : CompletionOpts := { temperature := 0.1, maxTokens := 10 }

/-- Options of the Grade-stage completion call. -/
def gradeOpts : CompletionOpts := { temperature := 0.1, maxTokens := 5 }

/-- Options of the Generate-stage completion call. -/
def generateOpts : CompletionOpts := { temperature := 0.7, maxTokens := 2000 }

/-- Options of the Retrieve-stage search call. -/
def searchOpts : SearchOpts := { top := 5, queryType := "semantic" }

/-- The message list sent by the Analyze stage. -/
def analysisMessages (userQuery : String) : List ChatMsg :=
  [{ role := "user", content := analysisPrompt userQuery }]

/-- The message list sent by the Grade stage. -/
def gradeMessages (userQuery : String) (docs : List RetrievedDoc) : List ChatMsg :=
  [{ role := "user", content := gradePrompt userQuery docs }]

/-- The fixed apologetic fallback answer of `_generateNode`. -/
def fallbackAnswer : String :=
  "I apologize, but I encountered an error while generating the response."

/-! ### The four workflow nodes -/

/-- `_agentNode`: Analyze stage. Asks the Completion Service to classify
the query; a reply containing RETRIEVE (case-insensitively) triggers
retrieval; any other reply or a failed call yields the GENERATE branch
(the catch block sets `needsRAG := false` and leaves `searchQuery`
untouched). -/
def _agentNode (sv : Services) (s : RAGState) : RAGState × List ServiceCall :=
  let executionSteps := _addStep "agent_analysis" (.agentAnalysis s.userQuery)
  let msgs := analysisMessages s.userQuery
  match sv.generateCompletion msgs analyzeOpts with
  | .ok decision =>
      let needsRetrieval := containsRetrieveCI decision
      ({ s with
          needsRAG := some needsRetrieval,
          searchQuery := if needsRetrieval then s.userQuery else "",
          executionSteps := s.executionSteps ++ executionSteps,
          messages := s.messages ++ [.human s.userQuery] },
        [.completion msgs analyzeOpts (.ok decision)])
  | .error e =>
      ({ s with
          needsRAG := some false,
          executionSteps := s.executionSteps ++ executionSteps,
          messages := s.messages ++ [.human s.userQuery] },
        [.completion msgs analyzeOpts (.error e)])

/-- `_retrieveNode`: Retrieve stage. Calls the Retrieval Service with
`top = 5`, semantic mode; a failed call degrades to the empty document
set. -/
def _retrieveNode (sv : Services) (s : RAGState) : RAGState × List ServiceCall :=
  let executionSteps := _addStep "retrieval" (.retrieval s.searchQuery s.retryCount)
  match sv.searchDocuments s.searchQuery searchOpts with
  | .ok results =>
      ({ s with
          retrievedDocs := results.map SearchResult.toRetrievedDoc,
          executionSteps := s.executionSteps ++ executionSteps },
        [.search s.searchQuery searchOpts (.ok results)])
  | .error e =>
      ({ s with
          retrievedDocs := [],
          executionSteps := s.executionSteps ++ executionSteps },
        [.search s.searchQuery searchOpts (.error e)])

/-- `_gradeDocumentsNode`: Grade stage. Zero retrieved documents short-
circuit to rejection without any Completion Service call; otherwise the
grading reply is matched case-insensitively for yes, and a failed call
degrades to rejection. -/
def _gradeDocumentsNode (sv : Services) (s : RAGState) : RAGState × List ServiceCall :=
  let executionSteps := _addStep "grade_documents" (.gradeDocuments s.retrievedDocs.length)
  if s.retrievedDocs.length = 0 then
    ({ s with
        ragAccepted := some false,
        rejectionReason := "No documents retrieved",
        executionSteps := s.executionSteps ++ executionSteps },
      [])
  else
    let msgs := gradeMessages s.userQuery s.retrievedDocs
    match sv.generateCompletion msgs gradeOpts with
    | .ok gradeResult =>
        let isRelevant := containsYesCI gradeResult
        ({ s with
            ragAccepted := some isRelevant,
            rejectionReason := if isRelevant then "" else "Documents not relevant to query",
            executionSteps := s.executionSteps ++ executionSteps },
          [.completion msgs gradeOpts (.ok gradeResult)])
    | .error e =>
        ({ s with
            ragAccepted := some false,
            rejectionReason := "Error evaluating document relevance",
            executionSteps := s.executionSteps ++ executionSteps },
          [.completion msgs gradeOpts (.error e)])

/-- The prompt chosen by `_generateNode`: the RAG synthesis prompt exactly
when `ragAccepted` is truthy and documents are present, the general-
knowledge prompt otherwise. -/
def generationPrompt (s : RAGState) : String :=
  if s.ragAccepted = some true ∧ 0 < s.retrievedDocs.length then
    ragAnswerPrompt s.userQuery s.retrievedDocs
  else
    generalKnowledgePrompt s.userQuery s.rejectionReason

/-- The message list sent by the Generate stage. -/
def generationMessages (s : RAGState) : List ChatMsg :=
  [{ role := "user", content := generationPrompt s }]

/-- `_generateNode`: Generate stage at temperature 0.7; a failed call
degrades to the fixed apologetic fallback answer. (The node returns
`[...state.messages, AIMessage]` on the concatenating `messages` channel,
hence the duplicated prefix.) -/
def _generateNode (sv : Services) (s : RAGState) : RAGState × List ServiceCall :=
  let executionSteps := _addStep "generate" (.generation s.ragAccepted s.retrievedDocs.length)
  let msgs := generationMessages s
  match sv.generateCompletion msgs generateOpts with
  | .ok answer =>
      ({ s with
          finalAnswer := answer,
          executionSteps := s.executionSteps ++ executionSteps,
          messages := s.messages ++ (s.messages ++ [.ai answer]) },
        [.completion msgs generateOpts (.ok answer)])
  | .error e =>
      ({ s with
          finalAnswer := fallbackAnswer,
          executionSteps := s.executionSteps ++ executionSteps,
          messages := s.messages ++ (s.messages ++ [.ai "Error generating response"]) },
        [.completion msgs generateOpts (.error e)])

/-- `_decideToRetrieve`: conditional edge after Analyze (JS truthiness of
`needsRAG`, a tri-state null / true / false). -/
def _decideToRetrieve (s : RAGState) : String :=
  if s.needsRAG = some true then "retrieve" else "generate"

/-- `_gradeDocuments`: conditional edge after Grade. All three labels are
mapped to the generate node in the graph. -/
def _gradeDocuments (s : RAGState) : String :=
  if s.retrievedDocs.length = 0 then "no_docs"
  else if s.ragAccepted = some true then "relevant"
  else "no_docs"

/-- The `recursionLimit` passed to `workflow.compile`. -/
def recursionLimit : Nat := 10

/-- Execution of the compiled StateGraph: `__start__ → agent`, a
conditional edge to `retrieve` or `generate`, `retrieve → grade_documents`,
a conditional edge whose three labels all lead to `generate`, and
`generate → END`. The topology is acyclic, so the run is this straight-line
composition and the recursion limit never binds. Returns the final state
and the trace of external calls. -/
def runWorkflow (sv : Services) (s0 : RAGState) : RAGState × List ServiceCall :=
  let a := _agentNode sv s0
  if _decideToRetrieve a.1 = "retrieve" then
    let r := _retrieveNode sv a.1
    let g := _gradeDocumentsNode sv r.1
    let n := _generateNode sv g.1
    (n.1, a.2 ++ r.2 ++ g.2 ++ n.2)
  else
    let n := _generateNode sv a.1
    (n.1, a.2 ++ n.2)

/-! ### Execution Result Normalizer (the common response shape) -/

/-- `retrievalDetails.documentsFound` is a document count for the workflow
strategy but the literal string Variable for the React strategy; the
dynamic JS value is modelled as a sum. -/
inductive DocsFound where
  | count (n : Nat)
  | text (s : String)
deriving DecidableEq, Repr

/-- One entry of `retrievalDetails.topDocuments` (score only). -/
structure TopDoc where
  score : ℚ
deriving DecidableEq, Repr

/-- The `retrievalDetails` block of the explainability payload. -/
structure RetrievalDetails where
  searchQuery : String
  documentsFound : DocsFound
  topDocuments : List TopDoc
deriving DecidableEq, Repr

/-- The `decisionPoints` block. The React strategy hardcodes the boolean
literals true / true / 0; the workflow strategy copies the tri-state
fields, so the common dynamic shape is modelled with `Option Bool`. -/
structure DecisionPoints where
  needsRAG : Option Bool
  ragAccepted : Option Bool
  retryCount : Int
deriving DecidableEq, Repr

/-- The explainability payload. `rejectionReason` is a string for the
workflow strategy and the literal null for the React strategy, modelled as
`Option String`. `retrievalDetails` is null when retrieval was not
triggered. -/
structure Explainability where
  executionSteps : List Step
  decisionPoints : DecisionPoints
  retrievalDetails : Option RetrievalDetails
  rejectionReason : Option String
deriving DecidableEq, Repr

/-- The `metadata` block: timing, timestamp, version and the strategy
identifier (`agentType`). -/
structure ResultMetadata where
  executionTimeMs : Nat
  timestamp : String
  workflowVersion : String
  agentType : String
deriving DecidableEq, Repr

/-- The one common response shape both strategies return:
`\x7bsessionId, query, answer, explainability, metadata\x7d`. -/
structure ExecutionResult where
  sessionId : String
  query : String
  answer : String
  explainability : Explainability
  metadata : ResultMetadata
deriving DecidableEq, Repr

/-- The initial workflow state built by `execute` for the WORKFLOW type
(`sessionId` models the `uuidv4()` call; `maxRetries` is the caller option
defaulted to -1). -/
def initialState (sessionId userQuery : String) (maxRetries : Int) : RAGState :=
  { messages := []
    sessionId := sessionId
    userQuery := userQuery
    needsRAG := none
    searchQuery := ""
    retrievedDocs := []
    ragAccepted := none
    rejectionReason := ""
    finalAnswer := ""
    executionSteps := []
    retryCount := 0
    maxRetries := maxRetries }

/-- `execute` for the WORKFLOW agent type: run the graph on a fresh state
and normalize the final state into the common response shape.
`sessionId` models the `uuidv4()` call and `elapsedMs` the measured
`Date.now() - startTime`. Also returns the external-call trace. -/
def executeWorkflow (sv : Services) (sessionId : String) (elapsedMs : Nat)
    (userQuery : String) (maxRetries? : Option Int) :
    ExecutionResult × List ServiceCall :=
  let s0 := initialState sessionId userQuery (maxRetries?.getD (-1))
  let run := runWorkflow sv s0
  let r := run.1
  ({ sessionId := r.sessionId
     query := userQuery
     answer := r.finalAnswer
     explainability :=
       { executionSteps := r.executionSteps
         decisionPoints :=
           { needsRAG := r.needsRAG
             ragAccepted := r.ragAccepted
             retryCount := r.retryCount }
         retrievalDetails :=
           if r.needsRAG = some true then
             some
               { searchQuery := r.searchQuery
                 documentsFound := .count r.retrievedDocs.length
                 topDocuments := (r.retrievedDocs.take 3).map fun d => { score := d.score } }
           else none
         rejectionReason := some r.rejectionReason }
     metadata :=
       { executionTimeMs := elapsedMs
         timestamp := ""
         workflowVersion := "1.0.0"
         agentType := "workflow" } },
    run.2)

/-! ### The React strategy (Autonomous Tool Loop) -/

/-- The response of `this.agent.invoke` for the React agent: a message
list whose last element is read as the final answer. -/
structure ReactResponse where
  messages : List LCMessage
deriving DecidableEq, Repr

/-- The hardcoded arguments string embedded in the React trace:
JSON-ish text built directly from the user query. -/
def reactArgsJson (userQuery : String) : String :=
  "\x7b\"input\":\"" ++ userQuery ++ "\"\x7d"

/-- The fixed three-entry execution trace the React strategy reports,
independent of what the tool loop actually did. -/
def reactSteps (userQuery : String) : List Step :=
  [{ step := "tool_search_documents", timestamp := ""
     details := .toolCall "search_documents" (reactArgsJson userQuery) },
   { step := "tool_evaluate_documents", timestamp := ""
     details := .toolCall "evaluate_documents" (reactArgsJson userQuery) },
   { step := "generate", timestamp := ""
     details := .reactGenerate "createReactAgent" }]

/-- `execute` for the REACT agent type. `agentInvoke` abstracts the
`createReactAgent` loop (an external model-driven process); if it throws,
or if its response has no last message to read `.content` from, `execute`
rethrows as an agent-execution failure. -/
def executeReact (agentInvoke : List ChatMsg → Except String ReactResponse)
    (sessionId : String) (elapsedMs : Nat) (userQuery : String) :
    Except String ExecutionResult :=
  match agentInvoke [{ role := "user", content := userQuery }] with
  | .error e => .error ("Agent execution failed: " ++ e)
  | .ok response =>
    match response.messages.getLast? with
    | none => .error "Agent execution failed: cannot read content of undefined"
    | some finalMessage =>
      .ok
        { sessionId := sessionId
          query := userQuery
          answer := finalMessage.content
          explainability :=
            { executionSteps := reactSteps userQuery
              decisionPoints := { needsRAG := some true, ragAccepted := some true, retryCount := 0 }
              retrievalDetails :=
                some
                  { searchQuery := reactArgsJson userQuery
                    documentsFound := .text "Variable"
                    topDocuments := [] }
              rejectionReason := none }
          metadata :=
            { executionTimeMs := elapsedMs
              timestamp := ""
              workflowVersion := "React-1.0.0"
              agentType := "createReactAgent" } }

/-! ### Concrete service environments used as test inputs -/

/-- A deterministic environment: Analyze answers RETRIEVE, Grade answers
yes, Generate answers a fixed answer; search finds one Adobe document.
The three completion call sites are discriminated by their distinct
`maxTokens` (10 / 5 / 2000). -/
def svRetrieveYes : Services :=
  { generateCompletion := fun _ o =>
      if o.maxTokens = 10 then .ok "RETRIEVE"
      else if o.maxTokens = 5 then .ok "yes"
      else .ok "Adobe-based answer"
    searchDocuments := fun _ _ =>
      .ok [{ document := { content? := some "Adobe brand guidelines", jsonRepr := "" }
             score := 1 }] }

/-- An environment whose Analyze stage answers GENERATE. -/
def svGenerateOnly : Services :=
  { generateCompletion := fun _ o =>
      if o.maxTokens = 10 then .ok "GENERATE" else .ok "general answer"
    searchDocuments := fun _ _ => .ok [] }

/-- An environment where every external call fails. -/
def svAllFail : Services :=
  { generateCompletion := fun _ _ => .error "completion down"
    searchDocuments := fun _ _ => .error "search down" }

/-- An environment where Analyze answers RETRIEVE but the search finds
zero documents. -/
def svRetrieveNoDocs : Services :=
  { generateCompletion := fun _ o =>
      if o.maxTokens = 10 then .ok "RETRIEVE" else .ok "general answer"
    searchDocuments := fun _ _ => .ok [] }

/-- An environment where Analyze answers RETRIEVE, search finds one
document, and Grade answers no. -/
def svRetrieveNo : Services :=
  { generateCompletion := fun _ o =>
      if o.maxTokens = 10 then .ok "RETRIEVE"
      else if o.maxTokens = 5 then .ok "no"
      else .ok "general answer"
    searchDocuments := fun _ _ =>
      .ok [{ document := { content? := some "Generic design advice", jsonRepr := "" }
             score := 1 }] }

/-- A React agent stub that always answers with one AI message. -/
def reactAgentStub : List ChatMsg → Except String ReactResponse :=
  fun _ => .ok { messages := [.ai "react answer"] }

/-- The concrete result of running the React strategy on `reactAgentStub`
with session identifier r-session and elapsed time 0 (a test fixture). -/
def reactStubResult (q : String) : ExecutionResult :=
  { sessionId := "r-session"
    query := q
    answer := "react answer"
    explainability :=
      { executionSteps := reactSteps q
        decisionPoints := { needsRAG := some true, ragAccepted := some true, retryCount := 0 }
        retrievalDetails :=
          some { searchQuery := reactArgsJson q
                 documentsFound := .text "Variable"
                 topDocuments := [] }
        rejectionReason := none }
    metadata :=
      { executionTimeMs := 0
        timestamp := ""
        workflowVersion := "React-1.0.0"
        agentType := "createReactAgent" } }

/-! ### Derived outcome functions (per-stage semantics of a service result) -/

/-- Did the Analyze stage decide to retrieve? False on any reply not
containing RETRIEVE case-insensitively, and false on a failed call. -/
def analyzeSaysRetrieve : Except String String → Bool
  | .ok r => containsRetrieveCI r
  | .error _ => false

/-- The document list the Retrieve stage stores for a given Retrieval
Service outcome (a failure degrades to the empty list). -/
def retrievedOf : Except String (List SearchResult) → List RetrievedDoc
  | .ok rs => rs.map SearchResult.toRetrievedDoc
  | .error _ => []

/-- The acceptance flag the Grade stage computes from its completion
outcome (when documents are present). -/
def gradeAccepted : Except String String → Bool
  | .ok g => containsYesCI g
  | .error _ => false

/-- The rejection reason the Grade stage stores from its completion
outcome (when documents are present). -/
def gradeReason : Except String String → String
  | .ok g => if containsYesCI g then "" else "Documents not relevant to query"
  | .error _ => "Error evaluating document relevance"

/-- The final answer resulting from a Generate-stage completion outcome. -/
def answerOf : Except String String → String
  | .ok a => a
  | .error _ => fallbackAnswer

/-- The AI message the Generate stage appends to the message channel. -/
def aiEcho : Except String String → LCMessage
  | .ok a => .ai a
  | .error _ => .ai "Error generating response"

/-- The Analyze-stage execution step record. -/
def analysisStep (q : String) : Step :=
  { step := "agent_analysis", timestamp := "", details := .agentAnalysis q }

/-- The Retrieve-stage execution step record. -/
def retrievalStep (sq : String) (rc : Int) : Step :=
  { step := "retrieval", timestamp := "", details := .retrieval sq rc }

/-- The Grade-stage execution step record. -/
def gradeStep (n : Nat) : Step :=
  { step := "grade_documents", timestamp := "", details := .gradeDocuments n }

/-- The Generate-stage execution step record. -/
def generateStep (acc : Option Bool) (n : Nat) : Step :=
  { step := "generate", timestamp := "", details := .generation acc n }

/-- A single user-role chat message. -/
def userMsg (content : String) : ChatMsg :=
  { role := "user", content := content }

/-- The message list of a general-knowledge Generate call. -/
def generalMessages (q reason : String) : List ChatMsg :=
  [userMsg (generalKnowledgePrompt q reason)]

/-- The message list of a RAG-synthesis Generate call. -/
def ragMessages (q : String) (docs : List RetrievedDoc) : List ChatMsg :=
  [userMsg (ragAnswerPrompt q docs)]

/-- The generation prompt chosen after a Grade stage with documents
present: the RAG synthesis prompt exactly on acceptance. -/
def postGradePrompt (q : String) (docs : List RetrievedDoc)
    (gres : Except String String) : String :=
  if gradeAccepted gres then ragAnswerPrompt q docs
  else generalKnowledgePrompt q (gradeReason gres)

/-- The Generate-stage message list after a Grade stage with documents
present. -/
def postGradeMessages (q : String) (docs : List RetrievedDoc)
    (gres : Except String String) : List ChatMsg :=
  [userMsg (postGradePrompt q docs gres)]

/-! ### Scenario characterizations of a full run -/

/-- Scenario characterization: when the Analyze outcome does not say
RETRIEVE (including a failed call), the run is Analyze followed directly
by a general-knowledge Generate, with retrieval skipped entirely. -/
theorem runWorkflow_generate_only (sv : Services) (id q : String) (m : Int)
    (hA : analyzeSaysRetrieve (sv.generateCompletion (analysisMessages q) analyzeOpts) = false) :
    runWorkflow sv (initialState id q m) =
      ({ messages := [.human q, .human q,
            aiEcho (sv.generateCompletion (generalMessages q "") generateOpts)]
         sessionId := id
         userQuery := q
         needsRAG := some false
         searchQuery := ""
         retrievedDocs := []
         ragAccepted := none
         rejectionReason := ""
         finalAnswer := answerOf (sv.generateCompletion (generalMessages q "") generateOpts)
         executionSteps := [analysisStep q, generateStep none 0]
         retryCount := 0
         maxRetries := m },
       [.completion (analysisMessages q) analyzeOpts
          (sv.generateCompletion (analysisMessages q) analyzeOpts),
        .completion (generalMessages q "") generateOpts
          (sv.generateCompletion (generalMessages q "") generateOpts)]) := by
  cases hA0 : sv.generateCompletion (analysisMessages q) analyzeOpts with
  | ok dec =>
      rw [hA0] at hA
      simp only [analyzeSaysRetrieve] at hA
      simp only [runWorkflow, _agentNode, _decideToRetrieve, initialState, hA0, hA]
      simp only [_generateNode, generationMessages, generationPrompt]
      cases hG : sv.generateCompletion (generalMessages q "") generateOpts with
      | ok a =>
          simp_all [generalMessages, userMsg, _addStep, analysisStep, generateStep,
            answerOf, aiEcho]
      | error e =>
          simp_all [generalMessages, userMsg, _addStep, analysisStep, generateStep,
            answerOf, aiEcho]
  | error e0 =>
      simp only [runWorkflow, _agentNode, _decideToRetrieve, initialState, hA0]
      simp only [_generateNode, generationMessages, generationPrompt]
      cases hG : sv.generateCompletion (generalMessages q "") generateOpts with
      | ok a =>
          simp_all [generalMessages, userMsg, _addStep, analysisStep, generateStep,
            answerOf, aiEcho]
      | error e =>
          simp_all [generalMessages, userMsg, _addStep, analysisStep, generateStep,
            answerOf, aiEcho]

/-- Scenario characterization: Analyze says RETRIEVE but the Retrieve
stage yields zero documents (an empty result or a failed search). The
Grade stage rejects with reason `No documents retrieved` without calling
the Completion Service, and Generate runs the general-knowledge prompt. -/
theorem runWorkflow_no_docs (sv : Services) (id q : String) (m : Int)
    (hA : analyzeSaysRetrieve (sv.generateCompletion (analysisMessages q) analyzeOpts) = true)
    (hS : retrievedOf (sv.searchDocuments q searchOpts) = []) :
    runWorkflow sv (initialState id q m) =
      ({ messages := [.human q, .human q,
            aiEcho (sv.generateCompletion (generalMessages q "No documents retrieved") generateOpts)]
         sessionId := id
         userQuery := q
         needsRAG := some true
         searchQuery := q
         retrievedDocs := []
         ragAccepted := some false
         rejectionReason := "No documents retrieved"
         finalAnswer :=
           answerOf (sv.generateCompletion (generalMessages q "No documents retrieved") generateOpts)
         executionSteps := [analysisStep q, retrievalStep q 0, gradeStep 0,
           generateStep (some false) 0]
         retryCount := 0
         maxRetries := m },
       [.completion (analysisMessages q) analyzeOpts
          (sv.generateCompletion (analysisMessages q) analyzeOpts),
        .search q searchOpts (sv.searchDocuments q searchOpts),
        .completion (generalMessages q "No documents retrieved") generateOpts
          (sv.generateCompletion (generalMessages q "No documents retrieved") generateOpts)]) := by
  cases hA0 : sv.generateCompletion (analysisMessages q) analyzeOpts with
  | error e0 => rw [hA0] at hA; simp [analyzeSaysRetrieve] at hA
  | ok dec =>
      rw [hA0] at hA
      simp only [analyzeSaysRetrieve] at hA
      simp only [runWorkflow, _agentNode, _decideToRetrieve, initialState, hA0, hA]
      cases hS0 : sv.searchDocuments q searchOpts with
      | ok rs =>
          rw [hS0] at hS
          simp only [retrievedOf] at hS
          simp only [_retrieveNode, searchOpts, hS0, hS]
          simp only [_gradeDocumentsNode, _generateNode, generationMessages, generationPrompt]
          cases hG : sv.generateCompletion (generalMessages q "No documents retrieved") generateOpts with
          | ok a =>
              simp_all [generalMessages, userMsg, _addStep, analysisStep, retrievalStep,
                gradeStep, generateStep, answerOf, aiEcho, searchOpts]
          | error e =>
              simp_all [generalMessages, userMsg, _addStep, analysisStep, retrievalStep,
                gradeStep, generateStep, answerOf, aiEcho, searchOpts]
      | error es =>
          simp only [_retrieveNode, searchOpts, hS0]
          simp only [_gradeDocumentsNode, _generateNode, generationMessages, generationPrompt]
          cases hG : sv.generateCompletion (generalMessages q "No documents retrieved") generateOpts with
          | ok a =>
              simp_all [generalMessages, userMsg, _addStep, analysisStep, retrievalStep,
                gradeStep, generateStep, answerOf, aiEcho, searchOpts]
          | error e =>
              simp_all [generalMessages, userMsg, _addStep, analysisStep, retrievalStep,
                gradeStep, generateStep, answerOf, aiEcho, searchOpts]

/-- Scenario characterization: Analyze says RETRIEVE and the Retrieve
stage yields a non-empty document list. The Grade stage asks the
Completion Service on the grading prompt over those documents and accepts
exactly when the reply contains yes case-insensitively; Generate then uses
the RAG prompt on acceptance and the general-knowledge prompt otherwise. -/
theorem runWorkflow_with_docs (sv : Services) (id q : String) (m : Int)
    (docs : List RetrievedDoc)
    (hA : analyzeSaysRetrieve (sv.generateCompletion (analysisMessages q) analyzeOpts) = true)
    (hS : retrievedOf (sv.searchDocuments q searchOpts) = docs)
    (hne : docs ≠ []) :
    runWorkflow sv (initialState id q m) =
      ({ messages := [.human q, .human q,
            aiEcho (sv.generateCompletion
              (postGradeMessages q docs (sv.generateCompletion (gradeMessages q docs) gradeOpts))
              generateOpts)]
         sessionId := id
         userQuery := q
         needsRAG := some true
         searchQuery := q
         retrievedDocs := docs
         ragAccepted := some (gradeAccepted (sv.generateCompletion (gradeMessages q docs) gradeOpts))
         rejectionReason := gradeReason (sv.generateCompletion (gradeMessages q docs) gradeOpts)
         finalAnswer :=
           answerOf (sv.generateCompletion
             (postGradeMessages q docs (sv.generateCompletion (gradeMessages q docs) gradeOpts))
             generateOpts)
         executionSteps := [analysisStep q, retrievalStep q 0, gradeStep docs.length,
           generateStep (some (gradeAccepted (sv.generateCompletion (gradeMessages q docs) gradeOpts)))
             docs.length]
         retryCount := 0
         maxRetries := m },
       [.completion (analysisMessages q) analyzeOpts
          (sv.generateCompletion (analysisMessages q) analyzeOpts),
        .search q searchOpts (sv.searchDocuments q searchOpts),
        .completion (gradeMessages q docs) gradeOpts
          (sv.generateCompletion (gradeMessages q docs) gradeOpts),
        .completion (postGradeMessages q docs (sv.generateCompletion (gradeMessages q docs) gradeOpts))
          generateOpts
          (sv.generateCompletion
            (postGradeMessages q docs (sv.generateCompletion (gradeMessages q docs) gradeOpts))
            generateOpts)]) := by
  have hlen : docs.length ≠ 0 := by
    intro h
    exact hne (List.eq_nil_of_length_eq_zero h)
  cases hA0 : sv.generateCompletion (analysisMessages q) analyzeOpts with
  | error e0 => rw [hA0] at hA; simp [analyzeSaysRetrieve] at hA
  | ok dec =>
      rw [hA0] at hA
      simp only [analyzeSaysRetrieve] at hA
      simp only [runWorkflow, _agentNode, _decideToRetrieve, initialState, hA0, hA]
      cases hS0 : sv.searchDocuments q searchOpts with
      | error es => rw [hS0] at hS; simp [retrievedOf] at hS; exact absurd hS hne
      | ok rs =>
          rw [hS0] at hS
          simp only [retrievedOf] at hS
          simp only [_retrieveNode, searchOpts, hS0, hS]
          simp only [_gradeDocumentsNode]
          cases hGr : sv.generateCompletion (gradeMessages q docs) gradeOpts with
          | ok g =>
              simp [hlen, gradeMessages]
              simp only [_generateNode, generationMessages, generationPrompt]
              by_cases hy : containsYesCI g = true
              · cases hG : sv.generateCompletion
                    (postGradeMessages q docs (Except.ok g)) generateOpts with
                | ok a =>
                    simp_all [postGradeMessages, postGradePrompt, gradeAccepted, gradeReason,
                      userMsg, _addStep, analysisStep, retrievalStep, gradeStep, generateStep,
                      answerOf, aiEcho, searchOpts, gradeMessages, ragMessages,
                      Nat.pos_of_ne_zero]
                | error e =>
                    simp_all [postGradeMessages, postGradePrompt, gradeAccepted, gradeReason,
                      userMsg, _addStep, analysisStep, retrievalStep, gradeStep, generateStep,
                      answerOf, aiEcho, searchOpts, gradeMessages, ragMessages,
                      Nat.pos_of_ne_zero]
              · cases hG : sv.generateCompletion
                    (postGradeMessages q docs (Except.ok g)) generateOpts with
                | ok a =>
                    simp_all [postGradeMessages, postGradePrompt, gradeAccepted, gradeReason,
                      userMsg, _addStep, analysisStep, retrievalStep, gradeStep, generateStep,
                      answerOf, aiEcho, searchOpts, gradeMessages,
                      Nat.pos_of_ne_zero]
                | error e =>
                    simp_all [postGradeMessages, postGradePrompt, gradeAccepted, gradeReason,
                      userMsg, _addStep, analysisStep, retrievalStep, gradeStep, generateStep,
                      answerOf, aiEcho, searchOpts, gradeMessages,
                      Nat.pos_of_ne_zero]
          | error eg =>
              simp [hlen, gradeMessages]
              simp only [_generateNode, generationMessages, generationPrompt]
              cases hG : sv.generateCompletion
                  (postGradeMessages q docs (Except.error eg)) generateOpts with
              | ok a =>
                  simp_all [postGradeMessages, postGradePrompt, gradeAccepted, gradeReason,
                    userMsg, _addStep, analysisStep, retrievalStep, gradeStep, generateStep,
                    answerOf, aiEcho, searchOpts, gradeMessages,
                    Nat.pos_of_ne_zero]
              | error e =>
                  simp_all [postGradeMessages, postGradePrompt, gradeAccepted, gradeReason,
                    userMsg, _addStep, analysisStep, retrievalStep, gradeStep, generateStep,
                    answerOf, aiEcho, searchOpts, gradeMessages,
                    Nat.pos_of_ne_zero]

/-! ### Small structural facts -/

/-- A 500-character excerpt really is at most 500 characters long. -/
theorem jsSubstring_length_le (s : String) (n : Nat) :
    (jsSubstring s n).length ≤ n :=
  List.length_take_le n s.data

/-- The grading prompt holds exactly one excerpt per retrieved document. -/
theorem gradeDocsBlock_count (docs : List RetrievedDoc) :
    (docs.mapIdx gradeDocSegment).length = docs.length :=
  List.length_mapIdx

/-- The session identifier is never rewritten by any stage of a run. -/
theorem runWorkflow_sessionId (sv : Services) (id q : String) (m : Int) :
    (runWorkflow sv (initialState id q m)).1.sessionId = id := by
  cases hA : analyzeSaysRetrieve (sv.generateCompletion (analysisMessages q) analyzeOpts) with
  | false => rw [runWorkflow_generate_only sv id q m hA]
  | true =>
      cases hS : retrievedOf (sv.searchDocuments q searchOpts) with
      | nil => rw [runWorkflow_no_docs sv id q m hA hS]
      | cons d ds =>
          rw [runWorkflow_with_docs sv id q m (d :: ds) hA hS (by simp)]

/-! ### Claim theorems -/

/-- C9: every Decision Workflow Engine run terminates with a bounded
number of stage transitions: the run is a total function on an acyclic
four-node graph, its executed-stage trace has length at most 4, and 4 is
within the reference recursion limit of 10 configured at compile time. -/
theorem claim_C9_bounded_stages (sv : Services) (id : String) (t : Nat)
    (q : String) (mr : Option Int) :
    (executeWorkflow sv id t q mr).1.explainability.executionSteps.length ≤ 4 ∧
    4 ≤ recursionLimit := by
  refine ⟨?_, by simp [recursionLimit]⟩
  cases hA : analyzeSaysRetrieve (sv.generateCompletion (analysisMessages q) analyzeOpts) with
  | false =>
      simp [executeWorkflow, runWorkflow_generate_only sv id q (mr.getD (-1)) hA]
  | true =>
      cases hS : retrievedOf (sv.searchDocuments q searchOpts) with
      | nil =>
          simp [executeWorkflow, runWorkflow_no_docs sv id q (mr.getD (-1)) hA hS]
      | cons d ds =>
          simp [executeWorkflow,
            runWorkflow_with_docs sv id q (mr.getD (-1)) (d :: ds) hA hS (by simp)]

/-- C5: each executed stage appends exactly one executionSteps entry (also
on internal failure), so the final trace is exactly the four stage names
when retrieval is triggered and exactly the two stage names when it is
not; Retrieve and Grade are skipped entirely, not run as no-ops. -/
theorem claim_C5_execution_steps (sv : Services) (id : String) (t : Nat)
    (q : String) (mr : Option Int) :
    (∃ b, (executeWorkflow sv id t q mr).1.explainability.decisionPoints.needsRAG = some b) ∧
    ((executeWorkflow sv id t q mr).1.explainability.decisionPoints.needsRAG = some true →
      (executeWorkflow sv id t q mr).1.explainability.executionSteps.map Step.step =
        ["agent_analysis", "retrieval", "grade_documents", "generate"]) ∧
    ((executeWorkflow sv id t q mr).1.explainability.decisionPoints.needsRAG = some false →
      (executeWorkflow sv id t q mr).1.explainability.executionSteps.map Step.step =
        ["agent_analysis", "generate"]) := by
  cases hA : analyzeSaysRetrieve (sv.generateCompletion (analysisMessages q) analyzeOpts) with
  | false =>
      simp [executeWorkflow, runWorkflow_generate_only sv id q (mr.getD (-1)) hA,
        analysisStep, generateStep]
  | true =>
      cases hS : retrievedOf (sv.searchDocuments q searchOpts) with
      | nil =>
          simp [executeWorkflow, runWorkflow_no_docs sv id q (mr.getD (-1)) hA hS,
            analysisStep, retrievalStep, gradeStep, generateStep]
      | cons d ds =>
          simp [executeWorkflow,
            runWorkflow_with_docs sv id q (mr.getD (-1)) (d :: ds) hA hS (by simp),
            analysisStep, retrievalStep, gradeStep, generateStep]

/-- C5 witness: a run that triggers retrieval has the four-stage trace and
a run that does not has the two-stage trace. -/
theorem claim_C5_execution_steps_witness :
    (executeWorkflow svRetrieveYes "s" 0 "q" none).1.explainability.executionSteps.map Step.step =
      ["agent_analysis", "retrieval", "grade_documents", "generate"] ∧
    (executeWorkflow svGenerateOnly "s" 0 "q" none).1.explainability.executionSteps.map Step.step =
      ["agent_analysis", "generate"] :=
  ⟨(claim_C5_execution_steps svRetrieveYes "s" 0 "q" none).2.1 (by decide),
   (claim_C5_execution_steps svGenerateOnly "s" 0 "q" none).2.2 (by decide)⟩

/-- C4: final-state invariants of every run: acceptance implies the
document set is non-empty, and a GENERATE decision (needsRAG false) leaves
the document set empty with the acceptance tri-state still unknown, also
in the decision summary of the normalized result. -/
theorem claim_C4_invariants (sv : Services) (id : String) (t : Nat)
    (q : String) (mr : Option Int) :
    ((runWorkflow sv (initialState id q (mr.getD (-1)))).1.ragAccepted = some true →
      (runWorkflow sv (initialState id q (mr.getD (-1)))).1.retrievedDocs ≠ []) ∧
    ((runWorkflow sv (initialState id q (mr.getD (-1)))).1.needsRAG = some false →
      (runWorkflow sv (initialState id q (mr.getD (-1)))).1.retrievedDocs = [] ∧
      (runWorkflow sv (initialState id q (mr.getD (-1)))).1.ragAccepted = none ∧
      (executeWorkflow sv id t q mr).1.explainability.decisionPoints.ragAccepted = none) := by
  cases hA : analyzeSaysRetrieve (sv.generateCompletion (analysisMessages q) analyzeOpts) with
  | false =>
      simp [executeWorkflow, runWorkflow_generate_only sv id q (mr.getD (-1)) hA]
  | true =>
      cases hS : retrievedOf (sv.searchDocuments q searchOpts) with
      | nil =>
          simp [executeWorkflow, runWorkflow_no_docs sv id q (mr.getD (-1)) hA hS]
      | cons d ds =>
          simp [executeWorkflow,
            runWorkflow_with_docs sv id q (mr.getD (-1)) (d :: ds) hA hS (by simp)]

/-- C4 witness: concrete runs exercising both implications (an accepting
run has a non-empty document set; a GENERATE-decision run keeps the
document set empty and the acceptance unknown). -/
theorem claim_C4_invariants_witness :
    (runWorkflow svRetrieveYes (initialState "s" "q" (-1))).1.retrievedDocs ≠ [] ∧
    ((runWorkflow svGenerateOnly (initialState "s" "q" (-1))).1.retrievedDocs = [] ∧
      (runWorkflow svGenerateOnly (initialState "s" "q" (-1))).1.ragAccepted = none ∧
      (executeWorkflow svGenerateOnly "s" 0 "q" none).1.explainability.decisionPoints.ragAccepted = none) :=
  ⟨(claim_C4_invariants svRetrieveYes "s" 0 "q" none).1 (by decide),
   (claim_C4_invariants svGenerateOnly "s" 0 "q" none).2 (by decide)⟩

/-- C6: the workflow transitions to Retrieve exactly when the Analyze
reply contains RETRIEVE under case-insensitive substring matching (any
other reply, and a failed call, yields the GENERATE branch), and
searchQuery is the user query exactly when retrieval is triggered and the
empty string otherwise. -/
theorem claim_C6_analyze_branching (sv : Services) (id q : String) (m : Int) :
    (runWorkflow sv (initialState id q m)).1.needsRAG =
      some (analyzeSaysRetrieve (sv.generateCompletion (analysisMessages q) analyzeOpts)) ∧
    (runWorkflow sv (initialState id q m)).1.searchQuery =
      (if analyzeSaysRetrieve (sv.generateCompletion (analysisMessages q) analyzeOpts)
        then q else "") ∧
    ((∃ st ∈ (runWorkflow sv (initialState id q m)).1.executionSteps, st.step = "retrieval") ↔
      analyzeSaysRetrieve (sv.generateCompletion (analysisMessages q) analyzeOpts) = true) := by
  cases hA : analyzeSaysRetrieve (sv.generateCompletion (analysisMessages q) analyzeOpts) with
  | false =>
      simp [runWorkflow_generate_only sv id q m hA, analysisStep, generateStep]
  | true =>
      cases hS : retrievedOf (sv.searchDocuments q searchOpts) with
      | nil =>
          rw [runWorkflow_no_docs sv id q m hA hS]
          refine ⟨rfl, by simp, ?_⟩
          simp only [iff_true]
          exact ⟨retrievalStep q 0, by simp [analysisStep, retrievalStep, gradeStep, generateStep]⟩
      | cons d ds =>
          rw [runWorkflow_with_docs sv id q m (d :: ds) hA hS (by simp)]
          refine ⟨rfl, by simp, ?_⟩
          simp only [iff_true]
          exact ⟨retrievalStep q 0, by simp [analysisStep, retrievalStep, gradeStep, generateStep]⟩

/-- C1 counterexample: a concrete run in which Analyze answers RETRIEVE
and the search succeeds with zero documents; the stored rejection reason
is the capitalized "No documents retrieved", so it is not equal to the
exact lowercase string "no documents retrieved" that the claim asserts. -/
theorem claim_C1_counterexample :
    (runWorkflow svRetrieveNoDocs (initialState "s" "q" (-1))).1.needsRAG = some true ∧
    (runWorkflow svRetrieveNoDocs (initialState "s" "q" (-1))).1.retrievedDocs = [] ∧
    (runWorkflow svRetrieveNoDocs (initialState "s" "q" (-1))).1.rejectionReason =
      "No documents retrieved" ∧
    (runWorkflow svRetrieveNoDocs (initialState "s" "q" (-1))).1.rejectionReason ≠
      "no documents retrieved" := by
  decide

/-- C1 (amended): in every run in which the Retrieve stage yields zero
documents, the Grade stage sets ragAccepted to false with rejection
reason "No documents retrieved" (capitalized, unlike the claimed exact
string), and makes no Completion Service call: the complete external-call
trace is the Analyze completion call, the search call and the Generate
completion call only. -/
theorem claim_C1_no_docs_rejection (sv : Services) (id q : String) (m : Int)
    (hA : analyzeSaysRetrieve (sv.generateCompletion (analysisMessages q) analyzeOpts) = true)
    (hS : retrievedOf (sv.searchDocuments q searchOpts) = []) :
    (runWorkflow sv (initialState id q m)).1.ragAccepted = some false ∧
    (runWorkflow sv (initialState id q m)).1.rejectionReason = "No documents retrieved" ∧
    (runWorkflow sv (initialState id q m)).2 =
      [.completion (analysisMessages q) analyzeOpts
         (sv.generateCompletion (analysisMessages q) analyzeOpts),
       .search q searchOpts (sv.searchDocuments q searchOpts),
       .completion (generalMessages q "No documents retrieved") generateOpts
         (sv.generateCompletion (generalMessages q "No documents retrieved") generateOpts)] := by
  rw [runWorkflow_no_docs sv id q m hA hS]
  exact ⟨rfl, rfl, rfl⟩

/-- C1 witness: the amended theorem applied to the concrete zero-document
environment. -/
theorem claim_C1_no_docs_rejection_witness :
    (runWorkflow svRetrieveNoDocs (initialState "s" "q" (-1))).1.ragAccepted = some false ∧
    (runWorkflow svRetrieveNoDocs (initialState "s" "q" (-1))).1.rejectionReason =
      "No documents retrieved" :=
  ⟨(claim_C1_no_docs_rejection svRetrieveNoDocs "s" "q" (-1) (by decide) (by decide)).1,
   (claim_C1_no_docs_rejection svRetrieveNoDocs "s" "q" (-1) (by decide) (by decide)).2.1⟩

/-- C3: downstream-service failures are absorbed locally and never abort a
run (the run is a total function): a failed Analyze call degrades to the
GENERATE decision, a failed Retrieve call degrades to the empty document
set, a failed Generate call degrades to the fixed apologetic fallback
answer, and when the Completion Service fails on every call the run still
returns a result whose answer is the fallback string and whose needsRAG is
false. -/
theorem claim_C3_failure_degradation (sv : Services) (id : String) (t : Nat)
    (q : String) (mr : Option Int) :
    ((∃ e, sv.generateCompletion (analysisMessages q) analyzeOpts = .error e) →
      (runWorkflow sv (initialState id q (mr.getD (-1)))).1.needsRAG = some false) ∧
    (∀ s : RAGState, (∃ e, sv.searchDocuments s.searchQuery searchOpts = .error e) →
      (_retrieveNode sv s).1.retrievedDocs = []) ∧
    (∀ s : RAGState, (∃ e, sv.generateCompletion (generationMessages s) generateOpts = .error e) →
      (_generateNode sv s).1.finalAnswer = fallbackAnswer) ∧
    ((∀ ms os, ∃ e, sv.generateCompletion ms os = .error e) →
      (executeWorkflow sv id t q mr).1.answer = fallbackAnswer ∧
      (executeWorkflow sv id t q mr).1.explainability.decisionPoints.needsRAG = some false) := by
  refine ⟨?_, ?_, ?_, ?_⟩
  · rintro ⟨e, he⟩
    have hA : analyzeSaysRetrieve
        (sv.generateCompletion (analysisMessages q) analyzeOpts) = false := by
      rw [he]; rfl
    simp [runWorkflow_generate_only sv id q (mr.getD (-1)) hA]
  · rintro s ⟨e, he⟩
    simp [_retrieveNode, he]
  · rintro s ⟨e, he⟩
    simp [_generateNode, he]
  · intro h
    obtain ⟨e, he⟩ := h (analysisMessages q) analyzeOpts
    have hA : analyzeSaysRetrieve
        (sv.generateCompletion (analysisMessages q) analyzeOpts) = false := by
      rw [he]; rfl
    obtain ⟨e2, he2⟩ := h (generalMessages q "") generateOpts
    simp [executeWorkflow, runWorkflow_generate_only sv id q (mr.getD (-1)) hA, he2, answerOf]

/-- C3 witness: every part of the degradation theorem applied to the
environment in which every external call fails. -/
theorem claim_C3_failure_degradation_witness :
    (runWorkflow svAllFail (initialState "s" "q" (-1))).1.needsRAG = some false ∧
    (_retrieveNode svAllFail (initialState "s" "q" (-1))).1.retrievedDocs = [] ∧
    (_generateNode svAllFail (initialState "s" "q" (-1))).1.finalAnswer = fallbackAnswer ∧
    (executeWorkflow svAllFail "s" 0 "q" none).1.answer = fallbackAnswer ∧
    (executeWorkflow svAllFail "s" 0 "q" none).1.explainability.decisionPoints.needsRAG =
      some false :=
  ⟨(claim_C3_failure_degradation svAllFail "s" 0 "q" none).1 ⟨"completion down", rfl⟩,
   (claim_C3_failure_degradation svAllFail "s" 0 "q" none).2.1
     (initialState "s" "q" (-1)) ⟨"search down", rfl⟩,
   (claim_C3_failure_degradation svAllFail "s" 0 "q" none).2.2.1
     (initialState "s" "q" (-1)) ⟨"completion down", rfl⟩,
   ((claim_C3_failure_degradation svAllFail "s" 0 "q" none).2.2.2
     (fun _ _ => ⟨"completion down", rfl⟩)).1,
   ((claim_C3_failure_degradation svAllFail "s" 0 "q" none).2.2.2
     (fun _ _ => ⟨"completion down", rfl⟩)).2⟩

/-- C7: when Retrieve yields a non-empty document list (of at most the 5
documents the stage requested), the Grade stage makes exactly one
Completion Service call, carrying the grading prompt built from the query
and one excerpt per document truncated to 500 characters, and accepts
exactly when the reply contains yes case-insensitively. -/
theorem claim_C7_grading (sv : Services) (id q : String) (m : Int)
    (docs : List RetrievedDoc)
    (hA : analyzeSaysRetrieve (sv.generateCompletion (analysisMessages q) analyzeOpts) = true)
    (hS : retrievedOf (sv.searchDocuments q searchOpts) = docs)
    (hne : docs ≠ []) (h5 : docs.length ≤ 5) :
    (∃ ares sres gres,
      (runWorkflow sv (initialState id q m)).2 =
        [.completion (analysisMessages q) analyzeOpts ares,
         .search q searchOpts sres,
         .completion [userMsg (gradePrompt q docs)] gradeOpts
           (sv.generateCompletion (gradeMessages q docs) gradeOpts),
         gres]) ∧
    (docs.mapIdx gradeDocSegment).length = docs.length ∧
    docs.length ≤ 5 ∧
    (∀ d ∈ docs, (jsSubstring d.content 500).length ≤ 500) ∧
    (runWorkflow sv (initialState id q m)).1.ragAccepted =
      some (gradeAccepted (sv.generateCompletion (gradeMessages q docs) gradeOpts)) ∧
    (∀ g, sv.generateCompletion (gradeMessages q docs) gradeOpts = .ok g →
      ((runWorkflow sv (initialState id q m)).1.ragAccepted = some true ↔
        containsYesCI g = true)) := by
  rw [runWorkflow_with_docs sv id q m docs hA hS hne]
  refine ⟨⟨_, _, _, rfl⟩, gradeDocsBlock_count docs, h5,
    fun d _ => jsSubstring_length_le d.content 500, rfl, ?_⟩
  intro g hg
  simp [hg, gradeAccepted]

/-- C7 witness: the grading theorem applied to the concrete environment
that retrieves one Adobe document and grades it yes. -/
theorem claim_C7_grading_witness :
    (runWorkflow svRetrieveYes (initialState "s" "q" (-1))).1.ragAccepted =
      some (gradeAccepted (svRetrieveYes.generateCompletion
        (gradeMessages "q"
          [{ content := "Adobe brand guidelines", score := 1,
             metadata := { content? := some "Adobe brand guidelines", jsonRepr := "" } }])
        gradeOpts)) :=
  (claim_C7_grading svRetrieveYes "s" "q" (-1)
    [{ content := "Adobe brand guidelines", score := 1,
       metadata := { content? := some "Adobe brand guidelines", jsonRepr := "" } }]
    (by decide) (by decide) (by decide) (by decide)).2.2.2.2.1

/-- C8: the Generate stage always calls the Completion Service at
temperature 0.7; its prompt is the answer-synthesis prompt built from the
full retrieved document contents and the query exactly when ragAccepted is
true, and the general-knowledge prompt carrying no document context (only,
optionally, the rejection reason) otherwise. -/
theorem claim_C8_generation (sv : Services) (id q : String) (m : Int) :
    generateOpts.temperature = 0.7 ∧
    ∃ gres,
      (runWorkflow sv (initialState id q m)).2.getLast? =
        some (.completion
          [userMsg (if (runWorkflow sv (initialState id q m)).1.ragAccepted = some true
            then ragAnswerPrompt q (runWorkflow sv (initialState id q m)).1.retrievedDocs
            else generalKnowledgePrompt q (runWorkflow sv (initialState id q m)).1.rejectionReason)]
          generateOpts gres) ∧
      (runWorkflow sv (initialState id q m)).1.finalAnswer = answerOf gres := by
  refine ⟨rfl, ?_⟩
  cases hA : analyzeSaysRetrieve (sv.generateCompletion (analysisMessages q) analyzeOpts) with
  | false =>
      rw [runWorkflow_generate_only sv id q m hA]
      exact ⟨sv.generateCompletion (generalMessages q "") generateOpts, by simp [generalMessages], rfl⟩
  | true =>
      cases hS : retrievedOf (sv.searchDocuments q searchOpts) with
      | nil =>
          rw [runWorkflow_no_docs sv id q m hA hS]
          exact ⟨sv.generateCompletion (generalMessages q "No documents retrieved") generateOpts,
            by simp [generalMessages], rfl⟩
      | cons d ds =>
          rw [runWorkflow_with_docs sv id q m (d :: ds) hA hS (by simp)]
          refine ⟨sv.generateCompletion
            (postGradeMessages q (d :: ds)
              (sv.generateCompletion (gradeMessages q (d :: ds)) gradeOpts)) generateOpts,
            ?_, rfl⟩
          by_cases hacc : gradeAccepted
              (sv.generateCompletion (gradeMessages q (d :: ds)) gradeOpts) = true
          · simp [postGradeMessages, postGradePrompt, hacc]
          · simp [postGradeMessages, postGradePrompt, hacc]

/-- C2: both strategies return the one common response shape (both produce
a value of the single `ExecutionResult` structure, whose metadata carries
executionTimeMs, timestamp and the strategy identifier); when both run on
the same query with distinct fresh session identifiers, their strategy
identifiers differ and their session identifiers are distinct. -/
theorem claim_C2_common_shape (sv : Services)
    (agentInvoke : List ChatMsg → Except String ReactResponse)
    (q idW idR : String) (tW tR : Nat) (mr : Option Int) (r : ExecutionResult)
    (hid : idW ≠ idR)
    (hr : executeReact agentInvoke idR tR q = .ok r) :
    (executeWorkflow sv idW tW q mr).1.sessionId = idW ∧
    r.sessionId = idR ∧
    (executeWorkflow sv idW tW q mr).1.sessionId ≠ r.sessionId ∧
    (executeWorkflow sv idW tW q mr).1.metadata.agentType = "workflow" ∧
    r.metadata.agentType = "createReactAgent" ∧
    (executeWorkflow sv idW tW q mr).1.metadata.agentType ≠ r.metadata.agentType ∧
    (executeWorkflow sv idW tW q mr).1.query = q ∧ r.query = q := by
  have hsess : (executeWorkflow sv idW tW q mr).1.sessionId = idW := by
    simp [executeWorkflow, runWorkflow_sessionId]
  unfold executeReact at hr
  split at hr
  · exact absurd hr (by simp)
  · split at hr
    · exact absurd hr (by simp)
    · simp only [Except.ok.injEq] at hr
      subst hr
      refine ⟨hsess, rfl, ?_, rfl, rfl, by simp [executeWorkflow], rfl, rfl⟩
      rw [hsess]
      exact hid

/-- C2 witness: a concrete pair of runs of the two strategies on the same
query with distinct session identifiers. -/
theorem claim_C2_common_shape_witness :
    (executeWorkflow svRetrieveYes "w-session" 0 "q" none).1.sessionId = "w-session" ∧
    (executeWorkflow svRetrieveYes "w-session" 0 "q" none).1.sessionId ≠
      (reactStubResult "q").sessionId ∧
    (executeWorkflow svRetrieveYes "w-session" 0 "q" none).1.metadata.agentType ≠
      (reactStubResult "q").metadata.agentType :=
  ⟨(claim_C2_common_shape svRetrieveYes reactAgentStub "q" "w-session" "r-session" 0 0 none
      (reactStubResult "q") (by decide) rfl).1,
   (claim_C2_common_shape svRetrieveYes reactAgentStub "q" "w-session" "r-session" 0 0 none
      (reactStubResult "q") (by decide) rfl).2.2.1,
   (claim_C2_common_shape svRetrieveYes reactAgentStub "q" "w-session" "r-session" 0 0 none
      (reactStubResult "q") (by decide) rfl).2.2.2.2.2.1⟩

/-- C10: the explainability payload of a completed React-strategy run is
built from constants independent of the actual model and tool behavior:
decision points true/true/0, null rejection reason, the fixed three-entry
execution trace, and documentsFound equal to the literal string
Variable. -/
theorem claim_C10_react_constants
    (agentInvoke : List ChatMsg → Except String ReactResponse)
    (id : String) (t : Nat) (q : String) (r : ExecutionResult)
    (hr : executeReact agentInvoke id t q = .ok r) :
    r.explainability.decisionPoints =
      { needsRAG := some true, ragAccepted := some true, retryCount := 0 } ∧
    r.explainability.rejectionReason = none ∧
    r.explainability.executionSteps = reactSteps q ∧
    (reactSteps q).map Step.step =
      ["tool_search_documents", "tool_evaluate_documents", "generate"] ∧
    r.explainability.retrievalDetails =
      some { searchQuery := reactArgsJson q, documentsFound := .text "Variable",
             topDocuments := [] } := by
  unfold executeReact at hr
  split at hr
  · exact absurd hr (by simp)
  · split at hr
    · exact absurd hr (by simp)
    · simp only [Except.ok.injEq] at hr
      subst hr
      exact ⟨rfl, rfl, rfl, by simp [reactSteps], rfl⟩

/-- C10 witness: the constancy theorem applied to the stub agent run. -/
theorem claim_C10_react_constants_witness :
    (reactStubResult "q").explainability.decisionPoints =
      { needsRAG := some true, ragAccepted := some true, retryCount := 0 } ∧
    (reactStubResult "q").explainability.rejectionReason = none ∧
    (reactStubResult "q").explainability.retrievalDetails =
      some { searchQuery := reactArgsJson "q", documentsFound := .text "Variable",
             topDocuments := [] } :=
  ⟨(claim_C10_react_constants reactAgentStub "r-session" 0 "q" (reactStubResult "q") rfl).1,
   (claim_C10_react_constants reactAgentStub "r-session" 0 "q" (reactStubResult "q") rfl).2.1,
   (claim_C10_react_constants reactAgentStub "r-session" 0 "q" (reactStubResult "q") rfl).2.2.2.2⟩

end AgenticRAG
